import Mathlib

/-!
Verification development for the `@ddspog/pom` package: a Playwright
Page-Object-Model helper library with a screenshot "browser mockup"
compositor.

The definitions below are a shallow embedding of the TypeScript source
files `src/ComponentObjectModel.ts`, `src/PageObjectModel.ts`,
`src/Mockup.ts` and `src/MockupFunction.ts`.  Pure string templating is
translated to pure Lean functions; the effectful Playwright pipeline is
translated to explicit state passing over a context that tracks the open
pages of the browsing context, the pages' title/content, the number of
screenshot-capture attempts, and the files written to disk.  Capability
failures (Playwright rejections) are driven by an explicit failure
oracle, so that each control path of the source (including every
`finally` cleanup path) is a reachable branch of the Lean function.
-/

set_option maxRecDepth 100000

/-! ## ComponentObjectModel.ts -/

/-- State of a `ComponentObjectModel` instance: `this.className`, set in the
constructor from `this.constructor.name` (the concrete subclass name). -/
structure Com where
  className : String
deriving DecidableEq

/-- `ComponentObjectModel.log`: builds the line
`[POM: ${this.className}] ${action}` (the line passed to `console.log`). -/
def logLine (c : Com) (action : String) : String :=
  "[POM: " ++ c.className ++ "] " ++ action

/-- A `string | RegExp` lookup key, as accepted by the `getBy*` accessors.
The accessors quote a string key and call `.toString()` on a RegExp key. -/
inductive LocatorKey where
  | str : String → LocatorKey
  | regex : String → LocatorKey
deriving DecidableEq

/-- The key as rendered inside the accessors' log lines:
`typeof text === 'string' ? `"${text}"` : text.toString()`. -/
def renderKey : LocatorKey → String
  | LocatorKey.str s => "\"" ++ s ++ "\""
  | LocatorKey.regex r => r

/-- `ComponentObjectModel.getLocatorDescription`: the locator's
`toString()` with the first occurrence of `Locator@` removed (JS
`String.replace` with a plain-string pattern replaces only the first
occurrence).  The try/catch fallback to `'element'` is unreachable in this
pure model, matching the source comment that logging never fails. -/
def getLocatorDescription (locatorString : String) : String :=
  match locatorString.splitOn ("Locator@") with
  | [] => locatorString
  | [x] => x
  | x :: xs => x ++ String.intercalate ("Locator@") xs

/-- One call to a selector accessor or action of `ComponentObjectModel`.
Each constructor carries the runtime data the corresponding method
interpolates into its log line (locator descriptions and JSON renderings
arrive as already-formatted strings from Playwright / `JSON.stringify`). -/
inductive ComCall where
  | getByText (k : LocatorKey)
  | getByRole (role : String)
  | getByTestId (k : LocatorKey)
  | getByLabel (k : LocatorKey)
  | getByPlaceholder (k : LocatorKey)
  | getByAltText (k : LocatorKey)
  | locator (selector : String) (optsJson : Option String)
  | press (key : String)
  | click (locatorString : String)
  | fill (locatorString : String) (text : String)
  | hover (locatorString : String)
  | selectOption (locatorString : String) (valueJson : String) (optsJson : Option String)
  | waitUntilVisible (locatorString : String)
  | waitUntilHidden (locatorString : String)
  | errorAccessor
deriving DecidableEq

/-- The log lines appended by one `ComponentObjectModel` call, in order.
Every method calls `this.log(...)` exactly once before delegating to
Playwright; the `$error` getter logs `'$error'` and then delegates to
`this.locator('[aria-invalid="true"]')`, which appends its own line as
well (so `$error` appends two lines). -/
def callLines (c : Com) : ComCall → List String
  | ComCall.getByText k => [logLine c ("getByText(" ++ renderKey k ++ ")")]
  | ComCall.getByRole role => [logLine c ("getByRole(\"" ++ role ++ "\")")]
  | ComCall.getByTestId k => [logLine c ("getByTestId(" ++ renderKey k ++ ")")]
  | ComCall.getByLabel k => [logLine c ("getByLabel(" ++ renderKey k ++ ")")]
  | ComCall.getByPlaceholder k => [logLine c ("getByPlaceholder(" ++ renderKey k ++ ")")]
  | ComCall.getByAltText k => [logLine c ("getByAltText(" ++ renderKey k ++ ")")]
  | ComCall.locator sel optsJson =>
      [logLine c ("locator(\"" ++ sel ++ "\""
        ++ (match optsJson with
            | some o => ", " ++ o
            | none => "") ++ ")")]
  | ComCall.press key => [logLine c ("press(\"" ++ key ++ "\")")]
  | ComCall.click ls => [logLine c ("click(" ++ getLocatorDescription ls ++ ")")]
  | ComCall.fill ls text =>
      [logLine c ("fill(" ++ getLocatorDescription ls ++ ", \"" ++ text ++ "\")")]
  | ComCall.hover ls => [logLine c ("hover(" ++ getLocatorDescription ls ++ ")")]
  | ComCall.selectOption ls valueJson optsJson =>
      [logLine c ("selectOption(" ++ getLocatorDescription ls ++ ", " ++ valueJson ++ ")"
        ++ (match optsJson with
            | some o => ", " ++ o
            | none => ""))]
  | ComCall.waitUntilVisible ls =>
      [logLine c ("waitUntilVisible(" ++ getLocatorDescription ls ++ ")")]
  | ComCall.waitUntilHidden ls =>
      [logLine c ("waitUntilHidden(" ++ getLocatorDescription ls ++ ")")]
  | ComCall.errorAccessor =>
      [logLine c ("$error"), logLine c ("locator(\"[aria-invalid=\"true\"]\")")]

/-- Options object accepted by `ComponentObjectModel.click`
(`Parameters<Locator['click']>[0]`); only the fields relevant to the
force-override behaviour are modelled, plus one representative
passthrough field. -/
structure ClickOptions where
  force : Option Bool := none
  timeout : Option Nat := none
deriving DecidableEq

/-- The options `ComponentObjectModel.click` passes to `locator.click`:
`{ ...options, force: true }`.  Spreading an `undefined` options object
spreads nothing; the `force: true` property is written after the spread,
so it wins over any caller-supplied `force`. -/
def clickEffectiveOptions (options : Option ClickOptions) : ClickOptions :=
  { options.getD {} with force := some true }

/-! ## Mockup.ts and MockupFunction.ts: string templates -/

/-- Literal chunk of the `MountBrowserMockup` template literal before the
`${dimensions.width + 2}` interpolation (`src/Mockup.ts`, lines 159-176). -/
def mbA : String :=
  "
<!DOCTYPE html>
<html lang=\"en\">
<head>
    <meta charset=\"UTF-8\">
    <meta name=\"viewport\" content=\"width=device-width, initial-scale=1.0\">
    <title>Browser Mockup</title>
    <style>
        body \x7b
            margin: 0;
            padding: 16px;
            background: #f0f0f000;
            font-family: Arial, sans-serif;
        \x7d
    </style>
</head>
<body>
    <div aria-label=\"Browser Window\" style=\"border: 1px solid #ddd; border-radius: 8px; margin: 16px; width: "

/-- Literal chunk between the `${dimensions.width + 2}` and `${url}`
interpolations (`src/Mockup.ts`, lines 176-185); it ends with the lock
glyph and a space, the prefix of the address-bar text. -/
def mbB : String :=
  "px; font-family: Arial, sans-serif; box-shadow: 0 2px 8px rgba(0,0,0,0.1);\">
        <div aria-label=\"Browser Top Bar\" style=\"background: #f5f5f5; border-bottom: 1px solid #ddd; border-radius: 8px 8px 0 0; padding: 8px 12px; display: flex; align-items: center;\">
            <div aria-label=\"Traffic Lights\" style=\"display: flex; gap: 6px; margin-right: 12px;\">
                <div style=\"width: 12px; height: 12px; border-radius: 50%; background: #ff5f57;\"></div>
                <div style=\"width: 12px; height: 12px; border-radius: 50%; background: #ffbd2e;\"></div>
                <div style=\"width: 12px; height: 12px; border-radius: 50%; background: #28ca42;\"></div>
            </div>
            <div aria-label=\"Address Bar\" style=\"flex: 1; background: white; border: 1px solid #ddd; border-radius: 4px; padding: 4px 8px; font-size: 12px; color: #666;\">
                <a target=\"_blank\" style=\"color: #333; text-decoration: none; pointer-events: none;\">
                    🔒 "

/-- Literal chunk between the `${url}` and `${dimensions.width}`
interpolations (`src/Mockup.ts`, lines 185-191). -/
def mbC : String :=
  "
                </a>
            </div>
        </div>
        <div aria-label=\"Browser Content\" style=\"padding: 0;\">
            <img alt=\"Page Screenshot\" 
                style=\"width: "

/-- Literal chunk between the `${dimensions.width}` and
`${dimensions.height}` interpolations. -/
def mbD : String := "px; height: "

/-- Literal chunk between the `${dimensions.height}` and `${dataURL}`
interpolations. -/
def mbE : String :=
  "px; display: block; border-radius: 0 0 8px 8px;\"
                src=\""

/-- Final literal chunk of the template, after `${dataURL}`. -/
def mbF : String :=
  "\" 
            >
        </div>
    </div>
</body>
</html>"

/-- `MountBrowserMockup` (`src/Mockup.ts`, lines 158-198): the browser
chrome HTML, a template literal alternating the fixed chunks above with
the interpolated window width (`dimensions.width + 2`), the raw `url`,
the image width/height and the embedded screenshot data URL.  Its only
inputs are the url, the data URL and the measured dimensions. -/
def MountBrowserMockup (url : String) (dataURL : String) (dims : Nat × Nat) : String :=
  mbA ++ toString (dims.1 + 2) ++ mbB ++ url ++ mbC
    ++ toString dims.1 ++ mbD ++ toString dims.2 ++ mbE ++ dataURL ++ mbF

/-- Literal chunk of the `generateBrowserMockupHtml` template literal
before the `${url}` interpolation (`src/MockupFunction.ts`, lines
105-131). -/
def gbA : String :=
  "
<!DOCTYPE html>
<html lang=\"en\">
<head>
    <meta charset=\"UTF-8\">
    <meta name=\"viewport\" content=\"width=device-width, initial-scale=1.0\">
    <title>Browser Mockup</title>
    <style>
        body \x7b
            margin: 0;
            padding: 16px;
            background: #f0f0f0;
            font-family: Arial, sans-serif;
        \x7d
    </style>
</head>
<body>
    <div aria-label=\"Browser Window\" style=\"border: 1px solid #ddd; border-radius: 8px; margin: 16px; max-width: 600px; font-family: Arial, sans-serif; box-shadow: 0 2px 8px rgba(0,0,0,0.1);\">
        <div aria-label=\"Browser Top Bar\" style=\"background: #f5f5f5; border-bottom: 1px solid #ddd; border-radius: 8px 8px 0 0; padding: 8px 12px; display: flex; align-items: center;\">
            <div aria-label=\"Traffic Lights\" style=\"display: flex; gap: 6px; margin-right: 12px;\">
                <div style=\"width: 12px; height: 12px; border-radius: 50%; background: #ff5f57;\"></div>
                <div style=\"width: 12px; height: 12px; border-radius: 50%; background: #ffbd2e;\"></div>
                <div style=\"width: 12px; height: 12px; border-radius: 50%; background: #28ca42;\"></div>
            </div>
            <div aria-label=\"Address Bar\" style=\"flex: 1; background: white; border: 1px solid #ddd; border-radius: 4px; padding: 4px 8px; font-size: 12px; color: #666;\">
                <a target=\"_blank\" style=\"color: #333; text-decoration: none; pointer-events: none;\">
                    🔒 "

/-- Literal chunk between the `${url}` and `${screenshotDataUrl}`
interpolations of `generateBrowserMockupHtml`. -/
def gbB : String :=
  "
                </a>
            </div>
        </div>
        <div aria-label=\"Browser Content\" style=\"padding: 0;\">
            <img alt=\"Page Screenshot\" 
                style=\"width: 100%; height: auto; display: block; border-radius: 0 0 8px 8px;\"
                src=\""

/-- Final literal chunk of `generateBrowserMockupHtml`, after
`${screenshotDataUrl}`. -/
def gbC : String :=
  "\" 
            >
        </div>
    </div>
</body>
</html>"

/-- `generateBrowserMockupHtml` (`src/MockupFunction.ts`, lines 104-144):
the chrome HTML of the legacy `type`-discriminated Mockup function; the
`url` and the data URL are its only interpolations. -/
def generateBrowserMockupHtml (url : String) (screenshotDataUrl : String) : String :=
  gbA ++ url ++ gbB ++ screenshotDataUrl ++ gbC

/-- The measurement-page HTML set by `getImageDimensions`
(`src/Mockup.ts`, lines 124-132). -/
def measureHtml (dataURL : String) : String :=
  "
            <!DOCTYPE html>
            <html>
            <head><title>Measure</title></head>
            <body>
                <img id=\"measure-img\" src=\"" ++ dataURL ++ "\">
            </body>
            </html>
        "

/-! ## Mockup.ts: effect model

The Playwright capability is modelled by explicit state passing.  A
browsing context is a list of pages (`pages`, indices are page ids; the
list records every page ever created) together with the ids of the pages
currently open (`openIds`).  Each awaited capability call consumes one
index of a failure oracle (`Env.oracle`), so every rejection point of the
source is a reachable branch. -/

/-- Observable state of one page: its title and its full content string
(the two observables the repository's own state-preservation test
compares). -/
structure PageState where
  title : String
  content : String
deriving DecidableEq

/-- State of the browsing context shared by the source page and the
disposable pages the compositor opens. -/
structure Ctx where
  /-- Every page ever created on the context, indexed by page id. -/
  pages : List PageState
  /-- Ids of the currently open pages, most recently opened first. -/
  openIds : List Nat
  /-- Index of the next awaited capability call (consumed by the oracle). -/
  nextCall : Nat
  /-- Number of screenshot captures attempted so far. -/
  captureAttempts : Nat
  /-- Paths written to disk by `screenshot({ path })`, most recent first. -/
  writtenFiles : List String
deriving DecidableEq

/-- What `measurePage.evaluate` reads in the measurement page:
`document.getElementById('measure-img')` is either `null` (`noImg`) or an
image element with the given `naturalWidth`/`naturalHeight` (both `0`
when the data URL failed to decode). -/
inductive MeasureOutcome where
  | noImg : MeasureOutcome
  | img : Nat → Nat → MeasureOutcome
deriving DecidableEq

/-- Environment of one Mockup call: the platform `btoa` base64 encoder,
the title the rendering engine derives when content is set on a page, the
measurement outcome, and the failure oracle for awaited capability calls. -/
structure Env where
  btoa : String → String
  titleOf : String → String
  measure : MeasureOutcome
  oracle : Nat → Bool

/-- Errors a Mockup call can reject with.  `capError` is a raw Playwright
rejection (identified by the failing call index and operation name).
`unsupported` is the `Error` thrown by the `type`-discriminated Mockup's
validation.  `compositionError` is the wrapper the specification's error
taxonomy describes; it is part of the type so that wrapping claims are
statable, and no code path below constructs it. -/
inductive MError where
  | capError : Nat → String → MError
  | unsupported : String → MError
  | compositionError : Nat → String → MError
deriving DecidableEq

/-- The screenshot options forwarded to a capture call (the fields of
`ScreenshotOptions` the claims depend on; `path` is the on-disk output
path, absent ⇒ no file write). -/
structure ScreenshotOpts where
  type : Option String := none
  path : Option String := none
  fullPage : Option Bool := none
  quality : Option Nat := none
  omitBackground : Option Bool := none
deriving DecidableEq

/-- The runtime value of `MockupOptions` (`src/Mockup.ts`, lines 41-54)
minus the `page` handle, which is passed separately as `srcId`.  `frame`
is a runtime string: TypeScript narrows it to `'browser'` at compile time
but performs no runtime check.  `focus` models the extra property the
repository's own `Focused Screenshot` e2e test passes at runtime
(`focus: { selector: 'button' }`, carried here as the selector string);
`MockupOptions` itself declares no such member. -/
structure MockupRequest where
  url : String
  frame : String
  path : Option String := none
  type : Option String := none
  fullPage : Option Bool := none
  quality : Option Nat := none
  omitBackground : Option Bool := none
  focus : Option String := none
deriving DecidableEq

/-- The options of the *source* capture, `page.screenshot({ type,
...options })`: the destructuring `{ page, url, frame: _, path, type,
...options }` removes `path` from the rest object, so the forwarded
options carry no output path. -/
def sourceCaptureOpts (req : MockupRequest) : ScreenshotOpts :=
  { type := req.type, path := none, fullPage := req.fullPage,
    quality := req.quality, omitBackground := req.omitBackground }

/-- The options of the final chrome capture,
`.screenshot({ type: 'png', path, omitBackground: true })`. -/
def finalCaptureOpts (req : MockupRequest) : ScreenshotOpts :=
  { type := some ("png"), path := req.path, fullPage := none,
    quality := none, omitBackground := some true }

/-- `p :: files` when the capture options carry a path, else `files`:
Playwright writes the image file itself when `path` is provided. -/
def writeIfPath (p : Option String) (files : List String) : List String :=
  match p with
  | some path => path :: files
  | none => files

/-- A screenshot capture (`page.screenshot` / `locator.screenshot`): one
awaited capability call; on success the encoded bytes are a function of
the captured page's content and the file write happens iff `opts.path` is
set. -/
def capScreenshot (env : Env) (op : String) (pid : Nat) (opts : ScreenshotOpts)
    (ctx : Ctx) : Except MError String × Ctx :=
  if env.oracle ctx.nextCall then
    (Except.error (MError.capError ctx.nextCall op),
     { ctx with nextCall := ctx.nextCall + 1,
                captureAttempts := ctx.captureAttempts + 1 })
  else
    (Except.ok ("capture(" ++ (ctx.pages.getD pid { title := "", content := "" }).content ++ ")"),
     { ctx with nextCall := ctx.nextCall + 1,
                captureAttempts := ctx.captureAttempts + 1,
                writtenFiles := writeIfPath opts.path ctx.writtenFiles })

/-- `page.context().newPage()`: one awaited call; on success a fresh blank
page is appended to the context and its id is reported open. -/
def capNewPage (env : Env) (ctx : Ctx) : Except MError Nat × Ctx :=
  if env.oracle ctx.nextCall then
    (Except.error (MError.capError ctx.nextCall ("newPage")),
     { ctx with nextCall := ctx.nextCall + 1 })
  else
    (Except.ok ctx.pages.length,
     { ctx with nextCall := ctx.nextCall + 1,
                pages := ctx.pages ++ [{ title := "", content := "about:blank" }],
                openIds := ctx.pages.length :: ctx.openIds })

/-- `page.setContent(html)`: one awaited call; on success the page's
content becomes `html` and its title whatever the engine derives from it. -/
def capSetContent (env : Env) (pid : Nat) (html : String) (ctx : Ctx) :
    Except MError Unit × Ctx :=
  if env.oracle ctx.nextCall then
    (Except.error (MError.capError ctx.nextCall ("setContent")),
     { ctx with nextCall := ctx.nextCall + 1 })
  else
    (Except.ok (),
     { ctx with nextCall := ctx.nextCall + 1,
                pages := ctx.pages.set pid { title := env.titleOf html, content := html } })

/-- `page.waitForLoadState('networkidle')`: one awaited call with no state
effect of its own. -/
def capWaitForLoadState (env : Env) (ctx : Ctx) : Except MError Unit × Ctx :=
  if env.oracle ctx.nextCall then
    (Except.error (MError.capError ctx.nextCall ("waitForLoadState")),
     { ctx with nextCall := ctx.nextCall + 1 })
  else
    (Except.ok (), { ctx with nextCall := ctx.nextCall + 1 })

/-- The in-page callback of `measurePage.evaluate`:
`{ width: img?.naturalWidth || 800, height: img?.naturalHeight || 600 }` —
JavaScript `||` replaces both `undefined` (missing element) and `0`
(undecodable image) with the defaults. -/
def dimsOf : MeasureOutcome → Nat × Nat
  | MeasureOutcome.noImg => (800, 600)
  | MeasureOutcome.img w h => (if w = 0 then 800 else w, if h = 0 then 600 else h)

/-- `measurePage.evaluate(...)`: one awaited call returning the measured
dimensions. -/
def capEvaluateDims (env : Env) (ctx : Ctx) : Except MError (Nat × Nat) × Ctx :=
  if env.oracle ctx.nextCall then
    (Except.error (MError.capError ctx.nextCall ("evaluate")),
     { ctx with nextCall := ctx.nextCall + 1 })
  else
    (Except.ok (dimsOf env.measure), { ctx with nextCall := ctx.nextCall + 1 })

/-- `page.close()`: removes the page from the open set.  Per the
capability contract, close does not reject. -/
def capClose (pid : Nat) (ctx : Ctx) : Ctx :=
  { ctx with openIds := ctx.openIds.erase pid }

/-- `getImageDimensions` (`src/Mockup.ts`, lines 120-148): opens a
disposable measurement page, sets the measurement HTML, waits for network
idle, evaluates the natural dimensions, and closes the page in a
`finally` block on every path after it was opened. -/
def getImageDimensions (env : Env) (dataURL : String) (ctx : Ctx) :
    Except MError (Nat × Nat) × Ctx :=
  match capNewPage env ctx with
  | (Except.error e, ctx) => (Except.error e, ctx)
  | (Except.ok measId, ctx) =>
    match capSetContent env measId (measureHtml dataURL) ctx with
    | (Except.error e, ctx) => (Except.error e, capClose measId ctx)
    | (Except.ok _, ctx) =>
      match capWaitForLoadState env ctx with
      | (Except.error e, ctx) => (Except.error e, capClose measId ctx)
      | (Except.ok _, ctx) =>
        match capEvaluateDims env ctx with
        | (Except.error e, ctx) => (Except.error e, capClose measId ctx)
        | (Except.ok dims, ctx) => (Except.ok dims, capClose measId ctx)

/-- The chrome HTML a request produces: `MountBrowserMockup(url, dataURL,
screenshotDimensions)` — the call site passes only the url, data URL and
dimensions, so no other request field (in particular not `focus`) reaches
the template. -/
def mockupChromeHtml (req : MockupRequest) (dataURL : String) (dims : Nat × Nat) : String :=
  MountBrowserMockup req.url dataURL dims

/-- The shared tail of both Mockup functions: `const mockupPage = await
page.context().newPage(); try { await mockupPage.setContent(html, ...);
return await ....screenshot(opts); } finally { await mockupPage.close(); }`
— open the disposable chrome page, set its content, capture it with the
given options, and close it in a `finally` block on every path after it
was opened. -/
def withMockupPage (env : Env) (op : String) (html : String) (opts : ScreenshotOpts)
    (ctx : Ctx) : Except MError String × Ctx :=
  match capNewPage env ctx with
  | (Except.error e, ctx) => (Except.error e, ctx)
  | (Except.ok mockId, ctx) =>
    match capSetContent env mockId html ctx with
    | (Except.error e, ctx) => (Except.error e, capClose mockId ctx)
    | (Except.ok _, ctx) =>
      match capScreenshot env op mockId opts ctx with
      | (Except.error e, ctx) => (Except.error e, capClose mockId ctx)
      | (Except.ok bytes, ctx) => (Except.ok bytes, capClose mockId ctx)

/-- `Mockup` (`src/Mockup.ts`, lines 87-111), the `frame`-discriminated
compositor.  The destructuring `{ page, url, frame: _, path, type,
...options }` discards `frame` without inspecting it; the pipeline is:
source capture → data URL → `getImageDimensions` → open the mockup page →
set the chrome HTML → capture the chrome element (with `path`), closing
the mockup page in a `finally` block on every path after it was opened. -/
def runMockup (req : MockupRequest) (env : Env) (srcId : Nat) (ctx : Ctx) :
    Except MError String × Ctx :=
  match capScreenshot env ("page.screenshot") srcId (sourceCaptureOpts req) ctx with
  | (Except.error e, ctx) => (Except.error e, ctx)
  | (Except.ok shot, ctx) =>
    let dataURL := "data:"
      ++ (if req.type = some ("jpeg") then "image/jpeg" else "image/png")
      ++ ";base64," ++ env.btoa shot
    match getImageDimensions env dataURL ctx with
    | (Except.error e, ctx) => (Except.error e, ctx)
    | (Except.ok dims, ctx) =>
      withMockupPage env ("locator.screenshot") (mockupChromeHtml req dataURL dims)
        (finalCaptureOpts req) ctx

/-- The runtime value of the legacy `MockupOptions`
(`src/MockupFunction.ts`, lines 6-29) minus the `page` handle.  `type` is
the runtime discriminator the function validates. -/
structure FnMockupRequest where
  url : String
  type : String
  screenshotType : Option String := none
  fullPage : Option Bool := none
  quality : Option Nat := none
deriving DecidableEq

/-- Source-capture options of the legacy Mockup:
`page.screenshot({ type: screenshotType, ...screenshotOptions })` with
`screenshotType` defaulting to `'png'`; its options interface has no
`path` member, so no path is ever forwarded. -/
def fnSourceCaptureOpts (req : FnMockupRequest) : ScreenshotOpts :=
  { type := some (req.screenshotType.getD ("png")), path := none,
    fullPage := req.fullPage, quality := req.quality, omitBackground := none }

/-- `Mockup` (`src/MockupFunction.ts`, lines 52-95), the
`type`-discriminated legacy compositor.  It validates the discriminator
first — `if (options.type !== 'browser') throw new Error(...)` — before
any capability call; on the supported value it captures the source,
builds the chrome HTML, opens a mockup page, sets the content and takes a
full-page screenshot, closing the mockup page in a `finally` block. -/
def runMockupFn (req : FnMockupRequest) (env : Env) (srcId : Nat) (ctx : Ctx) :
    Except MError String × Ctx :=
  if req.type = "browser" then
    match capScreenshot env ("page.screenshot") srcId (fnSourceCaptureOpts req) ctx with
    | (Except.error e, ctx) => (Except.error e, ctx)
    | (Except.ok shot, ctx) =>
      let dataURL := "data:"
        ++ (if req.screenshotType.getD ("png") = "jpeg" then "image/jpeg" else "image/png")
        ++ ";base64," ++ env.btoa shot
      withMockupPage env ("page.screenshot") (generateBrowserMockupHtml req.url dataURL)
        { type := some ("png"), fullPage := some true } ctx
  else
    (Except.error (MError.unsupported
      ("Unsupported mockup type: " ++ req.type ++ ". Only 'browser' is currently supported.")),
     ctx)

/-! ## Spec-side definitions (for refinement comparison) -/

/-- Modelled from the spec: the escaping of one character under the
required escaping contract for `displayUrl` ("markup delimiters, quotes
... must render literally"): the four HTML metacharacters become their
entity references. -/
def escChar (c : Char) : List Char :=
  if c = '&' then ("&amp;").data
  else if c = '<' then ("&lt;").data
  else if c = '>' then ("&gt;").data
  else if c = '\"' then ("&quot;").data
  else [c]

/-- Modelled from the spec: "HTML-escaped to prevent the value from being
interpreted as markup" — the URL with every markup delimiter and quote
replaced by its entity reference.  This is the spec's required transform,
stated for comparison with the source's template; the source never
applies it. -/
def htmlEscapeSpec (s : String) : String :=
  String.mk ((s.data.map escChar).flatten)

/-- `pat` is a prefix of `hay` (over character lists; executable). -/
def isPrefixCharList : List Char → List Char → Bool
  | [], _ => true
  | _ :: _, [] => false
  | a :: as, b :: bs => a == b && isPrefixCharList as bs

/-- `pat` occurs as a contiguous run inside `hay` (executable substring
search over character lists). -/
def containsCharList (pat : List Char) : List Char → Bool
  | [] => isPrefixCharList pat []
  | hd :: tl => isPrefixCharList pat (hd :: tl) || containsCharList pat tl

/-- `pat` occurs as a contiguous substring of `s`. -/
def containsSub (s pat : String) : Bool :=
  containsCharList pat.data s.data

/-! ## Concrete fixtures used by witnesses and counterexamples -/

/-- A benign environment: identity base64 stand-in, the engine's title for
the chrome page, a readable 400×300 measurement, and no capability
failures. -/
def envOk : Env :=
  { btoa := fun s => s, titleOf := fun _ => "Browser Mockup",
    measure := MeasureOutcome.img 400 300, oracle := fun _ => false }

/-- A context holding one open page: the source page (id 0). -/
def ctx0 : Ctx :=
  { pages := [{ title := "Test Page", content := "srcContent" }],
    openIds := [0], nextCall := 0, captureAttempts := 0, writtenFiles := [] }

/-- A well-formed browser-frame request. -/
def req0 : MockupRequest := { url := "https://example.com", frame := "browser" }

/-- Raw-rejection predicate: a Mockup result either succeeded or rejected
with a plain capability error — never the specification's
`compositionError` wrapper and never a validation error. -/
def errIsRaw : Except MError String → Prop
  | Except.error (MError.capError _ _) => True
  | Except.error _ => False
  | Except.ok _ => True

/-- Same raw-rejection predicate, for the dimension-measurement result. -/
def errIsRawDims : Except MError (Nat × Nat) → Prop
  | Except.error (MError.capError _ _) => True
  | Except.error _ => False
  | Except.ok _ => True

/-- An environment whose first awaited capability call (the source
capture) rejects. -/
def envFail0 : Env := { envOk with oracle := fun i => i == 0 }

/-- A display URL holding all four HTML metacharacters. -/
def urlCE : String := "<b>&\"x\"</b>"

/-- A concrete `ComponentObjectModel` subclass instance (the example
component POM of the repository). -/
def pomCE : Com := { className := "ExampleComponentPom" }

/-! ## Helper lemmas -/

theorem capScreenshot_cases (env : Env) (op : String) (pid : Nat)
    (opts : ScreenshotOpts) (ctx : Ctx) :
    capScreenshot env op pid opts ctx
        = (Except.error (MError.capError ctx.nextCall op),
           { ctx with nextCall := ctx.nextCall + 1,
                      captureAttempts := ctx.captureAttempts + 1 }) ∨
    capScreenshot env op pid opts ctx
        = (Except.ok ("capture(" ++ (ctx.pages.getD pid { title := "", content := "" }).content ++ ")"),
           { ctx with nextCall := ctx.nextCall + 1,
                      captureAttempts := ctx.captureAttempts + 1,
                      writtenFiles := writeIfPath opts.path ctx.writtenFiles }) := by
  unfold capScreenshot
  split_ifs <;> simp

theorem gid_openIds (env : Env) (d : String) (ctx : Ctx) :
    ((getImageDimensions env d ctx).2).openIds = ctx.openIds := by
  simp only [getImageDimensions, capNewPage, capSetContent, capWaitForLoadState,
    capEvaluateDims, capClose]
  repeat' split
  all_goals split_ifs at *
  all_goals try simp only [Prod.mk.injEq, Except.ok.injEq, Except.error.injEq] at *
  all_goals try casesm* _ ∧ _
  all_goals subst_vars
  all_goals simp_all [List.erase_cons_head]

theorem gid_writtenFiles (env : Env) (d : String) (ctx : Ctx) :
    ((getImageDimensions env d ctx).2).writtenFiles = ctx.writtenFiles := by
  simp only [getImageDimensions, capNewPage, capSetContent, capWaitForLoadState,
    capEvaluateDims, capClose]
  repeat' split
  all_goals split_ifs at *
  all_goals try simp only [Prod.mk.injEq, Except.ok.injEq, Except.error.injEq] at *
  all_goals try casesm* _ ∧ _
  all_goals subst_vars
  all_goals simp_all

theorem gid_pages (env : Env) (d : String) (ctx : Ctx) (i : Nat)
    (hi : i < ctx.pages.length) :
    ((getImageDimensions env d ctx).2).pages[i]? = ctx.pages[i]? := by
  simp only [getImageDimensions, capNewPage, capSetContent, capWaitForLoadState,
    capEvaluateDims, capClose]
  repeat' split
  all_goals split_ifs at *
  all_goals try simp only [Prod.mk.injEq, Except.ok.injEq, Except.error.injEq] at *
  all_goals try casesm* _ ∧ _
  all_goals subst_vars
  all_goals try simp_all
  all_goals try rw [List.getElem?_set_ne (show ctx.pages.length ≠ i by omega)]
  all_goals try rw [List.getElem?_append_left hi]
  all_goals exact List.getElem?_eq_getElem hi

theorem gid_len (env : Env) (d : String) (ctx : Ctx) :
    ctx.pages.length ≤ ((getImageDimensions env d ctx).2).pages.length := by
  simp only [getImageDimensions, capNewPage, capSetContent, capWaitForLoadState,
    capEvaluateDims, capClose]
  repeat' split
  all_goals split_ifs at *
  all_goals try simp only [Prod.mk.injEq, Except.ok.injEq, Except.error.injEq] at *
  all_goals try casesm* _ ∧ _
  all_goals subst_vars
  all_goals simp_all [List.length_set, List.length_append]

theorem gid_errIsRaw (env : Env) (d : String) (ctx : Ctx) :
    errIsRawDims (getImageDimensions env d ctx).1 := by
  simp only [getImageDimensions, capNewPage, capSetContent, capWaitForLoadState,
    capEvaluateDims, capClose]
  repeat' split
  all_goals split_ifs at *
  all_goals try simp only [Prod.mk.injEq, Except.ok.injEq, Except.error.injEq] at *
  all_goals try casesm* _ ∧ _
  all_goals subst_vars
  all_goals simp_all [errIsRawDims]

theorem wmp_openIds (env : Env) (op : String) (html : String) (opts : ScreenshotOpts)
    (ctx : Ctx) :
    ((withMockupPage env op html opts ctx).2).openIds = ctx.openIds := by
  simp only [withMockupPage, capNewPage, capSetContent, capScreenshot, capClose]
  repeat' split
  all_goals split_ifs at *
  all_goals try simp only [Prod.mk.injEq, Except.ok.injEq, Except.error.injEq] at *
  all_goals try casesm* _ ∧ _
  all_goals subst_vars
  all_goals simp_all [List.erase_cons_head]

theorem wmp_pages (env : Env) (op : String) (html : String) (opts : ScreenshotOpts)
    (ctx : Ctx) (i : Nat) (hi : i < ctx.pages.length) :
    ((withMockupPage env op html opts ctx).2).pages[i]? = ctx.pages[i]? := by
  simp only [withMockupPage, capNewPage, capSetContent, capScreenshot, capClose]
  repeat' split
  all_goals split_ifs at *
  all_goals try simp only [Prod.mk.injEq, Except.ok.injEq, Except.error.injEq] at *
  all_goals try casesm* _ ∧ _
  all_goals subst_vars
  all_goals try simp_all
  all_goals try rw [List.getElem?_set_ne (show ctx.pages.length ≠ i by omega)]
  all_goals try rw [List.getElem?_append_left hi]
  all_goals exact List.getElem?_eq_getElem hi

theorem wmp_errIsRaw (env : Env) (op : String) (html : String) (opts : ScreenshotOpts)
    (ctx : Ctx) :
    errIsRaw (withMockupPage env op html opts ctx).1 := by
  simp only [withMockupPage, capNewPage, capSetContent, capScreenshot, capClose]
  repeat' split
  all_goals split_ifs at *
  all_goals try simp only [Prod.mk.injEq, Except.ok.injEq, Except.error.injEq] at *
  all_goals try casesm* _ ∧ _
  all_goals subst_vars
  all_goals simp_all [errIsRaw]

theorem wmp_writtenFiles (env : Env) (op : String) (html : String) (opts : ScreenshotOpts)
    (ctx : Ctx) :
    ((withMockupPage env op html opts ctx).2).writtenFiles = ctx.writtenFiles ∨
    ((withMockupPage env op html opts ctx).2).writtenFiles
        = writeIfPath opts.path ctx.writtenFiles := by
  simp only [withMockupPage, capNewPage, capSetContent, capScreenshot, capClose]
  repeat' split
  all_goals split_ifs at *
  all_goals try simp only [Prod.mk.injEq, Except.ok.injEq, Except.error.injEq] at *
  all_goals try casesm* _ ∧ _
  all_goals subst_vars
  all_goals first
    | (left; simp_all; done)
    | (right; simp_all; done)
    | (left; rfl)
    | (right; rfl)

theorem gid_openIds_of_eq {env : Env} {d : String} {ctx : Ctx} {r : Except MError (Nat × Nat)}
    {c : Ctx} (heq : getImageDimensions env d ctx = (r, c)) :
    c.openIds = ctx.openIds := by
  have h := gid_openIds env d ctx
  rw [heq] at h
  exact h

theorem gid_writtenFiles_of_eq {env : Env} {d : String} {ctx : Ctx}
    {r : Except MError (Nat × Nat)} {c : Ctx}
    (heq : getImageDimensions env d ctx = (r, c)) :
    c.writtenFiles = ctx.writtenFiles := by
  have h := gid_writtenFiles env d ctx
  rw [heq] at h
  exact h

theorem gid_pages_of_eq {env : Env} {d : String} {ctx : Ctx} {r : Except MError (Nat × Nat)}
    {c : Ctx} (heq : getImageDimensions env d ctx = (r, c)) (i : Nat)
    (hi : i < ctx.pages.length) :
    c.pages[i]? = ctx.pages[i]? := by
  have h := gid_pages env d ctx i hi
  rw [heq] at h
  exact h

theorem gid_len_of_eq {env : Env} {d : String} {ctx : Ctx} {r : Except MError (Nat × Nat)}
    {c : Ctx} (heq : getImageDimensions env d ctx = (r, c)) :
    ctx.pages.length ≤ c.pages.length := by
  have h := gid_len env d ctx
  rw [heq] at h
  exact h

theorem gid_errIsRaw_of_eq {env : Env} {d : String} {ctx : Ctx}
    {r : Except MError (Nat × Nat)} {c : Ctx}
    (heq : getImageDimensions env d ctx = (r, c)) :
    errIsRawDims r := by
  have h := gid_errIsRaw env d ctx
  rw [heq] at h
  exact h

theorem runMockup_openIds (req : MockupRequest) (env : Env) (srcId : Nat) (ctx : Ctx) :
    ((runMockup req env srcId ctx).2).openIds = ctx.openIds := by
  unfold runMockup
  rcases capScreenshot_cases env ("page.screenshot") srcId (sourceCaptureOpts req) ctx with h | h
  · simp [h]
  · simp only [h]
    split
    · rename_i e c heq
      have h1 := gid_openIds_of_eq heq
      simpa using h1
    · rename_i dims c heq
      have h1 := gid_openIds_of_eq heq
      rw [wmp_openIds]
      simpa using h1

theorem runMockup_pages (req : MockupRequest) (env : Env) (srcId : Nat) (ctx : Ctx)
    (i : Nat) (hi : i < ctx.pages.length) :
    ((runMockup req env srcId ctx).2).pages[i]? = ctx.pages[i]? := by
  unfold runMockup
  rcases capScreenshot_cases env ("page.screenshot") srcId (sourceCaptureOpts req) ctx with h | h
  · simp [h]
  · simp only [h]
    split
    · rename_i e c heq
      have h1 := gid_pages_of_eq heq i (by simpa using hi)
      simpa using h1
    · rename_i dims c heq
      have h1 := gid_pages_of_eq heq i (by simpa using hi)
      have h2 : ctx.pages.length ≤ c.pages.length := by simpa using gid_len_of_eq heq
      rw [wmp_pages _ _ _ _ _ i (lt_of_lt_of_le hi h2)]
      simpa using h1

theorem runMockup_errIsRaw (req : MockupRequest) (env : Env) (srcId : Nat) (ctx : Ctx) :
    errIsRaw (runMockup req env srcId ctx).1 := by
  unfold runMockup
  rcases capScreenshot_cases env ("page.screenshot") srcId (sourceCaptureOpts req) ctx with h | h
  · simp [h, errIsRaw]
  · simp only [h]
    split
    · rename_i e c heq
      have h1 := gid_errIsRaw_of_eq heq
      cases e <;> simp_all [errIsRaw, errIsRawDims]
    · rename_i dims c heq
      exact wmp_errIsRaw _ _ _ _ _

theorem runMockup_writtenFiles (req : MockupRequest) (env : Env) (srcId : Nat) (ctx : Ctx) :
    ((runMockup req env srcId ctx).2).writtenFiles = ctx.writtenFiles ∨
    ((runMockup req env srcId ctx).2).writtenFiles = writeIfPath req.path ctx.writtenFiles := by
  unfold runMockup
  rcases capScreenshot_cases env ("page.screenshot") srcId (sourceCaptureOpts req) ctx with h | h
  · left
    simp [h]
  · simp only [h]
    split
    · rename_i e c heq
      left
      have h1 := gid_writtenFiles_of_eq heq
      simpa [sourceCaptureOpts, writeIfPath] using h1
    · rename_i dims c heq
      have h2 : c.writtenFiles = ctx.writtenFiles := by
        simpa [sourceCaptureOpts, writeIfPath] using gid_writtenFiles_of_eq heq
      rcases wmp_writtenFiles env _ _ _ c with h3 | h3
      · left
        rw [h3, h2]
      · right
        rw [h3]
        simp [finalCaptureOpts, h2]

theorem runMockup_ok_of_no_fail (req : MockupRequest) (b t : String → String)
    (m : MeasureOutcome) (srcId : Nat) (ctx : Ctx) :
    ((runMockup req { btoa := b, titleOf := t, measure := m, oracle := fun _ => false }
      srcId ctx).1).isOk = true := by
  simp [runMockup, getImageDimensions, withMockupPage, capScreenshot, capNewPage,
    capSetContent, capWaitForLoadState, capEvaluateDims, capClose]
  rfl

theorem runMockupFn_invalid (req : FnMockupRequest) (env : Env) (srcId : Nat) (ctx : Ctx)
    (h : req.type ≠ "browser") :
    runMockupFn req env srcId ctx
      = (Except.error (MError.unsupported
          ("Unsupported mockup type: " ++ req.type ++ ". Only 'browser' is currently supported.")),
         ctx) := by
  rw [runMockupFn, if_neg h]

/-! ## Claim theorems -/

/-- C1, counterexample: the `frame`-discriminated `Mockup` (`src/Mockup.ts`)
performs no runtime validation of the discriminator — a call with the
unsupported frame value `"bmp"` does not reject at all: it runs to
successful completion and performs two screenshot captures, refuting
"the call rejects … before any screenshot capture". -/
theorem c1_frame_mockup_skips_validation_counterexample :
    ((runMockup { req0 with frame := "bmp" } envOk 0 ctx0).1).isOk = true ∧
    (runMockup { req0 with frame := "bmp" } envOk 0 ctx0).2.captureAttempts = 2 := by
  constructor <;> rfl

/-- C1, amended: only the legacy `type`-discriminated `Mockup`
(`src/MockupFunction.ts`) validates its discriminator: for every runtime
`type` other than `'browser'` it rejects with an `Error` whose message
names the offending value, before any capability call — the context is
returned untouched, so zero captures occur.  The `frame`-discriminated
`Mockup` (`src/Mockup.ts`) performs no such runtime check. -/
theorem c1_type_mockup_validates_before_capture (req : FnMockupRequest) (env : Env)
    (srcId : Nat) (ctx : Ctx) (h : req.type ≠ "browser") :
    runMockupFn req env srcId ctx
      = (Except.error (MError.unsupported
          ("Unsupported mockup type: " ++ req.type ++ ". Only 'browser' is currently supported.")),
         ctx) ∧
    ((runMockupFn req env srcId ctx).2).captureAttempts = ctx.captureAttempts := by
  have h1 := runMockupFn_invalid req env srcId ctx h
  exact ⟨h1, by rw [h1]⟩

/-- C1, witness: the amended theorem at the concrete unsupported value
`"bmp"`: the rejection message names `bmp` and the context (hence the
capture count) is unchanged. -/
theorem c1_type_mockup_validates_witness :
    runMockupFn { url := "https://example.com", type := "bmp" } envOk 0 ctx0
      = (Except.error (MError.unsupported
          ("Unsupported mockup type: bmp. Only 'browser' is currently supported.")), ctx0) ∧
    ((runMockupFn { url := "https://example.com", type := "bmp" } envOk 0 ctx0).2).captureAttempts
      = ctx0.captureAttempts :=
  c1_type_mockup_validates_before_capture
    { url := "https://example.com", type := "bmp" } envOk 0 ctx0 (by decide)

/-- C2, counterexample: for the display URL `<b>&"x"</b>` the chrome HTML
of both template functions contains the URL raw (so its markup characters
are parsed as markup) and does not contain the spec's HTML-escaped form
anywhere — refuting "the address-bar portion … contains the URL
HTML-escaped". -/
theorem c2_url_not_escaped_counterexample :
    containsSub (MountBrowserMockup urlCE ("data:image/png;base64,AA") (400, 300)) urlCE = true ∧
    containsSub (MountBrowserMockup urlCE ("data:image/png;base64,AA") (400, 300))
        (htmlEscapeSpec urlCE) = false ∧
    containsSub (generateBrowserMockupHtml urlCE ("data:image/png;base64,AA")) urlCE = true ∧
    containsSub (generateBrowserMockupHtml urlCE ("data:image/png;base64,AA"))
        (htmlEscapeSpec urlCE) = false ∧
    htmlEscapeSpec urlCE ≠ urlCE := by
  refine ⟨by decide, by decide, by decide, by decide, by decide⟩

/-- C2, amended: the address-bar portion of the generated chrome HTML
contains the caller's `displayUrl` verbatim — with no HTML escaping
applied — immediately after the lock glyph: both templates decompose as
`prefix ++ url ++ suffix` with a prefix ending in `🔒 `, for every url. -/
theorem c2_url_verbatim_in_address_bar (url dataURL : String) (w h : Nat) :
    MountBrowserMockup url dataURL (w, h)
      = (mbA ++ toString (w + 2) ++ mbB) ++ url
          ++ (mbC ++ toString w ++ mbD ++ toString h ++ mbE ++ dataURL ++ mbF) ∧
    generateBrowserMockupHtml url dataURL = gbA ++ url ++ (gbB ++ dataURL ++ gbC) ∧
    isPrefixCharList (("🔒 ").data.reverse) (mbB.data.reverse) = true ∧
    isPrefixCharList (("🔒 ").data.reverse) (gbA.data.reverse) = true := by
  refine ⟨?_, ?_, by decide, by decide⟩ <;>
    simp [MountBrowserMockup, generateBrowserMockupHtml, String.append_assoc]

/-- C3: after every `Mockup` call — on the success path and on every
failure path — the source page's entry on the context (its title and full
content) is exactly what it was before the call: the pipeline only reads
the source page via `screenshot` and mutates only the freshly opened
disposable pages. -/
theorem c3_source_page_unchanged (req : MockupRequest) (env : Env) (srcId : Nat)
    (ctx : Ctx) (h : srcId < ctx.pages.length) :
    ((runMockup req env srcId ctx).2).pages[srcId]? = ctx.pages[srcId]? :=
  runMockup_pages req env srcId ctx srcId h

/-- C3, witness: the preservation theorem applied to the concrete
one-page context. -/
theorem c3_source_page_unchanged_witness :
    0 < ctx0.pages.length ∧
    ((runMockup req0 envOk 0 ctx0).2).pages[0]? = ctx0.pages[0]? :=
  ⟨by decide, c3_source_page_unchanged req0 envOk 0 ctx0 (by decide)⟩

/-- C4: every disposable page a `Mockup` call opens (the measurement page
inside `getImageDimensions` and the mockup-chrome page) is closed again
before the call returns or propagates an error, on every path: the open
set of the context after the call equals the open set before it, for
every failure oracle. -/
theorem c4_disposable_pages_closed (req : MockupRequest) (env : Env) (srcId : Nat)
    (ctx : Ctx) :
    ((runMockup req env srcId ctx).2).openIds = ctx.openIds :=
  runMockup_openIds req env srcId ctx

/-- C5, counterexample: when the source capture rejects, `Mockup`
propagates the raw capability error itself — not a `CompositionError`
wrapping it (no such wrapper exists in the source) — refuting "rejects
with a CompositionError that wraps the underlying cause". -/
theorem c5_raw_error_counterexample :
    (runMockup req0 envFail0 0 ctx0).1
      = Except.error (MError.capError 0 ("page.screenshot")) ∧
    (runMockup req0 envFail0 0 ctx0).2.openIds = ctx0.openIds := by
  constructor <;> rfl

/-- C5, amended: whenever a capability-level operation inside `Mockup`
fails, the call rejects with the raw underlying capability error (never
the specification's `compositionError` wrapper, never a validation
error), and the disposable pages are still closed. -/
theorem c5_errors_raw_with_cleanup (req : MockupRequest) (env : Env) (srcId : Nat)
    (ctx : Ctx) :
    errIsRaw (runMockup req env srcId ctx).1 ∧
    ((runMockup req env srcId ctx).2).openIds = ctx.openIds :=
  ⟨runMockup_errIsRaw req env srcId ctx, runMockup_openIds req env srcId ctx⟩

/-- C6: a focus-target selector has no effect whatsoever on the generated
chrome: the chrome template of a request carrying a focus selector is
identical to the template of the same request without one (and the whole
`Mockup` run is identical too), because `MockupOptions` declares no focus
member and `MountBrowserMockup` receives only the url, data URL and
dimensions.  This evaluates the code at the repository's own `Focused
Screenshot` e2e input, `focus: { selector: 'button' }`. -/
theorem c6_focus_target_ignored (req : MockupRequest) (env : Env) (srcId : Nat)
    (ctx : Ctx) (f g : Option String) (dataURL : String) (dims : Nat × Nat) :
    mockupChromeHtml { req with focus := f } dataURL dims
        = mockupChromeHtml { req with focus := g } dataURL dims ∧
    runMockup { req with focus := some ("button") } env srcId ctx
        = runMockup { req with focus := none } env srcId ctx :=
  ⟨rfl, rfl⟩

/-- C7: the measurement callback `img?.naturalWidth || 800` /
`img?.naturalHeight || 600` yields the fixed default 800×600 when the
image element is missing or reports zero dimensions, yields the exact
natural dimensions when they are non-zero, and the `Mockup` pipeline runs
to successful completion for every measurement outcome (the fallback
never fails the operation). -/
theorem c7_dimension_fallback (w h : Nat) (hw : w ≠ 0) (hh : h ≠ 0)
    (req : MockupRequest) (b t : String → String) (m : MeasureOutcome)
    (srcId : Nat) (ctx : Ctx) :
    dimsOf MeasureOutcome.noImg = (800, 600) ∧
    dimsOf (MeasureOutcome.img 0 0) = (800, 600) ∧
    dimsOf (MeasureOutcome.img w h) = (w, h) ∧
    ((runMockup req { btoa := b, titleOf := t, measure := m, oracle := fun _ => false }
      srcId ctx).1).isOk = true := by
  refine ⟨rfl, rfl, ?_, runMockup_ok_of_no_fail req b t m srcId ctx⟩
  simp [dimsOf, hw, hh]

/-- C7, witness: the fallback theorem at concrete inputs — an unreadable
measurement yields 800×600, a readable 400×300 yields 400×300, and the
concrete run with an unmeasurable image still succeeds. -/
theorem c7_dimension_fallback_witness :
    dimsOf MeasureOutcome.noImg = (800, 600) ∧
    dimsOf (MeasureOutcome.img 0 0) = (800, 600) ∧
    dimsOf (MeasureOutcome.img 400 300) = (400, 300) ∧
    ((runMockup req0
        { btoa := (fun s => s), titleOf := (fun _ => ""),
          measure := MeasureOutcome.noImg, oracle := (fun _ => false) } 0 ctx0).1).isOk = true :=
  c7_dimension_fallback 400 300 (by decide) (by decide) req0 (fun s => s) (fun _ => "")
    MeasureOutcome.noImg 0 ctx0

/-- C8, counterexample: a caller that passes `{ force: false }` still gets
a forced click — `{ ...options, force: true }` writes `force: true` after
the spread, so the caller-supplied value is overridden, refuting "the
caller-supplied force option takes precedence over the default". -/
theorem c8_force_override_counterexample :
    (clickEffectiveOptions (some { force := some false, timeout := none })).force
        = some true ∧
    (clickEffectiveOptions (some { force := some false, timeout := none })).force
        ≠ some false := by
  exact ⟨rfl, by decide⟩

/-- C8, amended: `click` always performs a forced click: for every caller
options object (including none at all), the options handed to
`locator.click` carry `force: true`, while the caller's other options are
preserved; a caller-supplied `force` value is overridden, not respected. -/
theorem c8_click_always_forced (o : Option ClickOptions) :
    (clickEffectiveOptions o).force = some true ∧
    (clickEffectiveOptions o).timeout = (o.getD {}).timeout := by
  cases o <;> simp [clickEffectiveOptions]

/-- C9, counterexample: the `$error` accessor appends two log lines, not
one (its own line plus the delegated `locator(...)` call's line), and the
lines carry the literal `[POM: ` prefix before the concrete type name
rather than the claimed bare `[<concrete-type-name>]` form. -/
theorem c9_error_accessor_logs_twice_counterexample :
    (callLines pomCE ComCall.errorAccessor).length = 2 ∧
    callLines pomCE ComCall.errorAccessor
      = ["[POM: ExampleComponentPom] $error",
         "[POM: ExampleComponentPom] locator(\"[aria-invalid=\"true\"]\")"] := by
  constructor <;> rfl

/-- C9, amended: every selector accessor and action appends exactly one
log line of the form `[POM: <concrete-type-name>] <accessor>(<key>)` —
note the literal `POM: ` prefix — except the `$error` accessor, which
appends two such lines (its own and the delegated `locator` call's); in
this model the log is the only observable effect of a call. -/
theorem c9_log_lines_form_and_count (c : Com) (call : ComCall) :
    (callLines c call).length
        = (match call with
           | ComCall.errorAccessor => 2
           | _ => 1) ∧
    ∀ l ∈ callLines c call, ∃ a, l = logLine c a := by
  cases call <;> refine ⟨rfl, ?_⟩ <;> intro l hl <;> simp [callLines] at hl <;>
    first
      | exact ⟨_, hl⟩
      | rcases hl with hl | hl <;> exact ⟨_, hl⟩

/-- C10: the output path is stripped from the options forwarded to the
source capture (`path` is destructured out before `...options`) and is
supplied exactly to the final chrome capture; consequently, on every path
of every run the set of written files either is unchanged or gains
exactly the requested output path — never the inner screenshot.  At a
concrete successful run with `path: 'm.png'`, precisely that one file is
written. -/
theorem c10_only_final_capture_writes (req : MockupRequest) (env : Env) (srcId : Nat)
    (ctx : Ctx) :
    (sourceCaptureOpts req).path = none ∧
    (finalCaptureOpts req).path = req.path ∧
    (((runMockup req env srcId ctx).2).writtenFiles = ctx.writtenFiles ∨
      ((runMockup req env srcId ctx).2).writtenFiles
        = writeIfPath req.path ctx.writtenFiles) ∧
    (runMockup { req0 with path := some ("m.png") } envOk 0 ctx0).2.writtenFiles
        = ["m.png"] :=
  ⟨rfl, rfl, runMockup_writtenFiles req env srcId ctx, rfl⟩
